import Mathlib

/-!
# Verification of the obar purchase-operation backend

Shallow embedding of `src/obar/apis/operation_namespace.py` (the purchase
transaction `OperationAPI.post`, the gift/undo workflows and the
`OperationCheckPurchase.get` read), together with proofs of the spec's
claims about them.

The backing store (SQLAlchemy session + database) is modelled as an explicit
`Store` value.  Object mutations made through the ORM session are staged on a
session copy of the store; only `db.session.commit()` makes the session state
the persistent state.  A request that raises an exception never reaches
`commit`, so the persistent store after a failed request is the original one.
-/

/-- A row of the Product table: `product_code_uuid`, `product_quantity`,
`product_availability` (the fields read by `operation_namespace.py`). -/
structure Product where
  product_code_uuid : String
  product_quantity : Int
  product_availability : Bool
deriving Repr, DecidableEq

/-- A row of the Purchase table.  `purchase_gifted` defaults to `false` at
creation (the model class is in `obar/models`, whose default the spec states:
"`gifted` (boolean, default false)"). -/
structure Purchase where
  purchase_code_uuid : String
  purchase_date : Nat
  purchase_customer_mail_address : String
  purchase_gifted : Bool
deriving Repr, DecidableEq

/-- A row of the PurchaseItem association table. -/
structure PurchaseItem where
  purchase_item_product_code_uuid : String
  purchase_item_purchase_code_uuid : String
  purchase_item_quantity : Int
deriving Repr, DecidableEq

/-- A row of the Customer table (the fields read by `operation_namespace.py`). -/
structure Customer where
  customer_mail_address : String
  customer_first_name : String
  customer_last_name : String
deriving Repr, DecidableEq

/-- The database state: one list per table, in the query order of the store. -/
structure Store where
  products : List Product
  purchases : List Purchase
  purchase_items : List PurchaseItem
  customers : List Customer
deriving Repr, DecidableEq

/-- Embeds `Product.query.filter_by(product_code_uuid=code).first()`. -/
def firstProductByCode (s : Store) (code : String) : Option Product :=
  s.products.find? (fun p => p.product_code_uuid == code)

/-- Embeds `Customer.query.filter_by(customer_mail_address=mail).first()`. -/
def firstCustomerByMail (s : Store) (mail : String) : Option Customer :=
  s.customers.find? (fun c => c.customer_mail_address == mail)

/-- Embeds `Purchase.query.filter_by(purchase_code_uuid=uuid).first()`. -/
def firstPurchaseByUuid (s : Store) (uuid : String) : Option Purchase :=
  s.purchases.find? (fun p => p.purchase_code_uuid == uuid)

/-- One entry of the request's `purchase_details` list (`purchase_details_model`:
a `product_code` and a `purchase_quantity`). -/
structure PurchaseDetails where
  product_code : String
  purchase_quantity : Int
deriving Repr, DecidableEq

/-- The failures `OperationAPI.post` can end in, one constructor per raise
site (plus the uncaught `AttributeError`, see `noneCustomerAttributeError`). -/
inductive SubmitError where
  /-- Line 78: `customer.customer_mail_address` is evaluated on `customer = None`
  before the `if customer is None` test on line 79, raising an uncaught
  `AttributeError` (an internal 500, not a `NotFound`). -/
  | noneCustomerAttributeError
  /-- Line 80: `raise NotFound(...)` — dead code, line 78 crashes first. -/
  | customerNotFound
  /-- Line 88: `raise UnprocessableEntity('Purchase quantity cannot be <= 0')`. -/
  | invalidQuantity
  /-- Line 95: `raise UnprocessableEntity('A product has been submitted twice')`. -/
  | duplicateProduct
  /-- Line 102: `raise NotFound('Product ... not found')`. -/
  | productNotFound (code : String)
  /-- Line 105: `raise UnprocessableEntity('Unavailable product selected')`. -/
  | productUnavailable
  /-- Line 108: `raise UnprocessableEntity('Product out of stock')`. -/
  | outOfStock
  /-- Line 111: `raise UnprocessableEntity('Too much quantity requested')`. -/
  | insufficientStock
deriving Repr, DecidableEq

/-- Lines 83-89: the first loop over `purchase_details` raises
`InvalidQuantity` on a non-positive quantity and otherwise adds the
`product_code` to the Python set `product_list`; the set is returned so line
94 can compare its cardinality with the cart length.  The set is modelled as
a duplicate-free list (`List.insert`; a Python set is unordered and only its
cardinality is used). -/
def collectProductList : List PurchaseDetails → List String → Except SubmitError (List String)
  | [], product_list => .ok product_list
  | details :: rest, product_list =>
    if details.purchase_quantity ≤ 0 then .error .invalidQuantity
    else collectProductList rest (product_list.insert details.product_code)

/-- Line 113: `product.product_quantity = product.product_quantity - q` as seen
by the session: every session object with this code is updated. -/
def updateQuantity (ps : List Product) (code : String) (q : Int) : List Product :=
  ps.map (fun p => if p.product_code_uuid == code then { p with product_quantity := q } else p)

/-- Lines 99-118: the per-line loop.  `sess` is the session view of the store
(staged, uncommitted).  For each cart line: look the product up, run the four
checks (missing / unavailable / stock `<= 0` / stock `<` requested), then stage
the stock decrement and a `PurchaseItem` for the pending purchase. -/
def processDetails (purchaseUuid : String) :
    List PurchaseDetails → Store → Except SubmitError Store
  | [], sess => .ok sess
  | details :: rest, sess =>
    match firstProductByCode sess details.product_code with
    | none => .error (.productNotFound details.product_code)
    | some product =>
      if !product.product_availability then .error .productUnavailable
      else if product.product_quantity ≤ 0 then .error .outOfStock
      else if product.product_quantity < details.purchase_quantity then .error .insufficientStock
      else
        processDetails purchaseUuid rest
          { sess with
            products := updateQuantity sess.products product.product_code_uuid
              (product.product_quantity - details.purchase_quantity),
            purchase_items := sess.purchase_items ++
              [{ purchase_item_product_code_uuid := product.product_code_uuid,
                 purchase_item_purchase_code_uuid := purchaseUuid,
                 purchase_item_quantity := details.purchase_quantity }] }

/-- Embeds `OperationAPI.post` (lines 68-120), the `submit` operation of the spec.
`mail` is the identity decoded from the JWT, `now` the value of
`dt.utcnow()`, `newUuid` the generated `purchase_code_uuid`, `cart` the
request's `purchase_details`.  Returns the session state at commit time and
the returned `purchase_uuid`, or the raised error. -/
def submit (store : Store) (mail : String) (now : Nat) (newUuid : String)
    (cart : List PurchaseDetails) : Except SubmitError (Store × String) :=
  match firstCustomerByMail store mail with
  | none =>
      -- line 77-78: `Purchase(..., customer.customer_mail_address)` is evaluated
      -- with `customer = None`, so an AttributeError escapes before the
      -- `if customer is None` check on line 79 can run.
      .error .noneCustomerAttributeError
  | some customer =>
    -- line 77: the Purchase object (gifted defaults to false)
    let purchase : Purchase :=
      { purchase_code_uuid := newUuid, purchase_date := now,
        purchase_customer_mail_address := customer.customer_mail_address,
        purchase_gifted := false }
    -- line 79: `if customer is None` is False here; line 80 never runs
    match collectProductList cart [] with
    | .error e => .error e
    | .ok product_list =>
      -- line 94: `len(product_list) != len(request.json['purchase_details'])`
      if product_list.length ≠ cart.length then .error .duplicateProduct
      else
        -- line 98: `db.session.add(purchase)` stages the purchase
        let sess : Store := { store with purchases := store.purchases ++ [purchase] }
        match processDetails newUuid cart sess with
        | .error e => .error e
        | .ok sess => .ok (sess, newUuid)  -- line 119: `db.session.commit()`

/-- The persistent store after a `/purchaseProducts` request together with the
HTTP-level result: on success the committed session state; on any raised
exception the commit on line 119 is never reached, so the uncommitted session
is discarded (rolled back at request teardown) and the store is unchanged. -/
def submitOutcome (store : Store) (mail : String) (now : Nat) (newUuid : String)
    (cart : List PurchaseDetails) : Except SubmitError String × Store :=
  match submit store mail now newUuid cart with
  | .error e => (.error e, store)
  | .ok (sess, uuid) => (.ok uuid, sess)

/-- The failures of `OperationCheckPurchase.get`. -/
inductive CheckError where
  /-- Line 237: `raise NotFound('purchase_uuid not found')` — a 404 client error. -/
  | purchaseNotFound
  /-- Line 240: `raise InternalServerError('customer not found in db')` — a 500
  server-side fault. -/
  | customerInconsistent
deriving Repr, DecidableEq

/-- The HTTP status class each `check` failure is surfaced with: `NotFound`
maps to 404 (client error), `InternalServerError` to 500 (server fault). -/
def checkErrorStatus : CheckError → Nat
  | .purchaseNotFound => 404
  | .customerInconsistent => 500

/-- The response dictionary built on lines 241-246. -/
structure CheckResponse where
  purchase_gifted : Bool
  purchase_date : Nat
  customer_first_name : String
  customer_last_name : String
deriving Repr, DecidableEq

/-- Embeds `OperationCheckPurchase.get` (lines 234-247): look up the purchase (404 if
missing), then its customer (500 if missing), and return the response.  The
method only queries, so it returns the store it was given. -/
def checkPurchase (store : Store) (purchase_uuid : String) :
    Except CheckError CheckResponse × Store :=
  match firstPurchaseByUuid store purchase_uuid with
  | none => (.error .purchaseNotFound, store)
  | some purchase =>
    match firstCustomerByMail store purchase.purchase_customer_mail_address with
    | none => (.error .customerInconsistent, store)
    | some customer =>
      (.ok { purchase_gifted := purchase.purchase_gifted,
             purchase_date := purchase.purchase_date,
             customer_first_name := customer.customer_first_name,
             customer_last_name := customer.customer_last_name }, store)

/-- The failures of the gift/undo workflows (spec §4.2-4.3). -/
inductive GiftError where
  | purchaseNotFound
  | notOwner
  | alreadyGifted
  | notGifted
deriving Repr, DecidableEq

/-- Set the `purchase_gifted` flag of every purchase row with this uuid. -/
def setGifted (ps : List Purchase) (uuid : String) (g : Bool) : List Purchase :=
  ps.map (fun p => if p.purchase_code_uuid == uuid then { p with purchase_gifted := g } else p)

/-- Modelled from the spec: `gift_purchase` is implemented in
`obar/apis/service/operation_service.py`, which is not among the provided
source files; §4.2 of the spec defines it.  Look up the Purchase by id
(missing → `PurchaseNotFound`); the requesting customer must own it
(else `NotOwner`); if already gifted fail with `AlreadyGifted`; else set
`gifted = true` and persist. -/
def gift_purchase (store : Store) (purchase_uuid : String) (requester : String) :
    Except GiftError Store :=
  match firstPurchaseByUuid store purchase_uuid with
  | none => .error .purchaseNotFound
  | some purchase =>
    if purchase.purchase_customer_mail_address ≠ requester then .error .notOwner
    else if purchase.purchase_gifted then .error .alreadyGifted
    else .ok { store with purchases := setGifted store.purchases purchase_uuid true }

/-- Modelled from the spec: `undo_purchase` is implemented in
`obar/apis/service/operation_service.py`, which is not among the provided
source files; §4.3 of the spec defines it.  Same lookup and ownership check
as `gift_purchase`; if not gifted fail with `NotGifted`; else set
`gifted = false` and persist. -/
def undo_purchase (store : Store) (purchase_uuid : String) (requester : String) :
    Except GiftError Store :=
  match firstPurchaseByUuid store purchase_uuid with
  | none => .error .purchaseNotFound
  | some purchase =>
    if purchase.purchase_customer_mail_address ≠ requester then .error .notOwner
    else if ¬purchase.purchase_gifted then .error .notGifted
    else .ok { store with purchases := setGifted store.purchases purchase_uuid false }

/-- The gift flag of the purchase with this uuid, if it exists. -/
def giftedFlag (store : Store) (purchase_uuid : String) : Option Bool :=
  (firstPurchaseByUuid store purchase_uuid).map (·.purchase_gifted)

/-- Per-line check of lines 100-111 against a given store view: the error of
the first failing check in the source's fixed order (product lookup, then
availability, then stock `<= 0`, then stock `<` requested quantity), or
`none` when the line passes all four. -/
def detailsCheck (store : Store) (details : PurchaseDetails) : Option SubmitError :=
  match firstProductByCode store details.product_code with
  | none => some (.productNotFound details.product_code)
  | some product =>
    if !product.product_availability then some .productUnavailable
    else if product.product_quantity ≤ 0 then some .outOfStock
    else if product.product_quantity < details.purchase_quantity then some .insufficientStock
    else none

/-- Sample customer used by the concrete test stores. -/
def ada : Customer :=
  { customer_mail_address := "ada@obar", customer_first_name := "Ada",
    customer_last_name := "Lovelace" }

/-- Sample store: products `A` (stock 5) and `B` (stock 1), both available,
and one registered customer. -/
def sampleStore : Store :=
  { products := [{ product_code_uuid := "A", product_quantity := 5, product_availability := true },
                 { product_code_uuid := "B", product_quantity := 1, product_availability := true }],
    purchases := [], purchase_items := [], customers := [ada] }

/-- Sample store holding one not-yet-gifted purchase owned by `ada`. -/
def giftStore : Store :=
  { products := [], purchases := [⟨"P1", 0, "ada@obar", false⟩],
    purchase_items := [], customers := [ada] }

lemma collectProductList_ok :
    ∀ (cart : List PurchaseDetails) (seen : List String),
    (∀ d ∈ cart, 0 < d.purchase_quantity) →
    collectProductList cart seen =
      .ok (cart.foldl (fun s d => s.insert d.product_code) seen) := by
  intro cart
  induction cart with
  | nil => intro seen _; rfl
  | cons d rest ih =>
    intro seen h
    have hd : 0 < d.purchase_quantity := h d (by simp)
    simp only [collectProductList, List.foldl_cons]
    rw [if_neg (by omega)]
    exact ih _ (fun d' hd' => h d' (by simp [hd']))

lemma collectProductList_invalid :
    ∀ (cart : List PurchaseDetails) (seen : List String) (d : PurchaseDetails),
    d ∈ cart → d.purchase_quantity ≤ 0 →
    collectProductList cart seen = .error .invalidQuantity := by
  intro cart
  induction cart with
  | nil => intro seen d hd _; simp at hd
  | cons a rest ih =>
    intro seen d hd hq
    simp only [collectProductList]
    by_cases ha : a.purchase_quantity ≤ 0
    · rw [if_pos ha]
    · rw [if_neg ha]
      rcases List.mem_cons.mp hd with h | h
      · exact absurd (h ▸ hq) ha
      · exact ih _ d h hq

lemma foldl_insert_length_le :
    ∀ (cart : List PurchaseDetails) (seen : List String),
    (cart.foldl (fun s d => s.insert d.product_code) seen).length ≤
      seen.length + cart.length := by
  intro cart
  induction cart with
  | nil => intro seen; simp
  | cons d rest ih =>
    intro seen
    simp only [List.foldl_cons, List.length_cons]
    have h1 := ih (seen.insert d.product_code)
    have h2 : (seen.insert d.product_code).length ≤ seen.length + 1 := by
      by_cases h : d.product_code ∈ seen
      · rw [List.length_insert_of_mem h]; omega
      · rw [List.length_insert_of_not_mem h]
    omega

lemma foldl_insert_length_nodup :
    ∀ (cart : List PurchaseDetails) (seen : List String),
    (cart.map (fun d => d.product_code)).Nodup →
    (∀ d ∈ cart, d.product_code ∉ seen) →
    (cart.foldl (fun s d => s.insert d.product_code) seen).length =
      seen.length + cart.length := by
  intro cart
  induction cart with
  | nil => intro seen _ _; simp
  | cons d rest ih =>
    intro seen hnd hns
    simp only [List.map_cons, List.nodup_cons] at hnd
    simp only [List.foldl_cons, List.length_cons]
    have hdn : d.product_code ∉ seen := hns d (by simp)
    have hstep : ∀ d' ∈ rest, d'.product_code ∉ seen.insert d.product_code := by
      intro d' hd'
      rw [List.insert_of_not_mem hdn, List.mem_cons]
      push_neg
      refine ⟨?_, hns d' (by simp [hd'])⟩
      intro heq
      exact hnd.1 (heq ▸ List.mem_map_of_mem (fun d => d.product_code) hd')
    rw [ih (seen.insert d.product_code) hnd.2 hstep, List.length_insert_of_not_mem hdn]
    omega

lemma foldl_insert_length_dup :
    ∀ (cart : List PurchaseDetails) (seen : List String),
    (¬ (cart.map (fun d => d.product_code)).Nodup ∨ ∃ d ∈ cart, d.product_code ∈ seen) →
    (cart.foldl (fun s d => s.insert d.product_code) seen).length <
      seen.length + cart.length := by
  intro cart
  induction cart with
  | nil =>
    intro seen h
    rcases h with h | ⟨d, hd, _⟩
    · simp at h
    · simp at hd
  | cons d rest ih =>
    intro seen h
    simp only [List.foldl_cons, List.length_cons]
    by_cases hmem : d.product_code ∈ seen
    · rw [List.insert_of_mem hmem]
      have := foldl_insert_length_le rest seen
      omega
    · rw [List.insert_of_not_mem hmem]
      have hnext : (¬ (rest.map (fun d => d.product_code)).Nodup ∨
          ∃ d' ∈ rest, d'.product_code ∈ d.product_code :: seen) := by
        rcases h with h | ⟨d', hd', hseen⟩
        · simp only [List.map_cons, List.nodup_cons, not_and] at h
          by_cases hin : d.product_code ∈ rest.map (fun d => d.product_code)
          · rcases List.mem_map.mp hin with ⟨d', hd', heq⟩
            exact Or.inr ⟨d', hd', by rw [heq]; exact List.mem_cons_self _ _⟩
          · exact Or.inl (h hin)
        · rcases List.mem_cons.mp hd' with heq | hd'
          · exact absurd (heq ▸ hseen) hmem
          · exact Or.inr ⟨d', hd', List.mem_cons_of_mem _ hseen⟩
      have := ih (d.product_code :: seen) hnext
      simp only [List.length_cons] at this
      omega


lemma find?_updateQuantity_ne (c c' : String) (q : Int) (h : c ≠ c') :
    ∀ ps : List Product,
    (updateQuantity ps c' q).find? (fun p => p.product_code_uuid == c) =
      ps.find? (fun p => p.product_code_uuid == c) := by
  intro ps
  induction ps with
  | nil => rfl
  | cons p rest ih =>
    simp only [updateQuantity, List.map_cons] at ih ⊢
    by_cases hc' : (p.product_code_uuid == c') = true
    · have hceq : p.product_code_uuid = c' := beq_iff_eq.mp hc'
      have hpc : ((fun x : Product => x.product_code_uuid == c) p) = false := by
        simp only [beq_eq_false_iff_ne, ne_eq, hceq]
        exact fun hcc => h hcc.symm
      rw [if_pos hc']
      rw [List.find?_cons_of_neg _ (p := fun x : Product => x.product_code_uuid == c)
            (by simp [hceq]; exact fun hcc => h hcc.symm),
          List.find?_cons_of_neg _ (p := fun x : Product => x.product_code_uuid == c)
            (by simp [hpc])]
      exact ih
    · rw [if_neg hc']
      by_cases hpc : (p.product_code_uuid == c) = true
      · rw [List.find?_cons_of_pos _ (p := fun x : Product => x.product_code_uuid == c) hpc,
            List.find?_cons_of_pos _ (p := fun x : Product => x.product_code_uuid == c) hpc]
      · rw [List.find?_cons_of_neg _ (p := fun x : Product => x.product_code_uuid == c) hpc,
            List.find?_cons_of_neg _ (p := fun x : Product => x.product_code_uuid == c) hpc]
        exact ih

lemma firstProductByCode_session_update (sess : Store) (items : List PurchaseItem)
    (c c' : String) (q : Int) (h : c ≠ c') :
    firstProductByCode
      { sess with products := updateQuantity sess.products c' q, purchase_items := items } c =
      firstProductByCode sess c := by
  simp only [firstProductByCode]
  exact find?_updateQuantity_ne c c' q h sess.products

lemma find?_setGifted (uuid : String) (g : Bool) :
    ∀ ps : List Purchase,
    (setGifted ps uuid g).find? (fun p => p.purchase_code_uuid == uuid) =
      (ps.find? (fun p => p.purchase_code_uuid == uuid)).map
        (fun p => { p with purchase_gifted := g }) := by
  intro ps
  induction ps with
  | nil => rfl
  | cons p rest ih =>
    simp only [setGifted, List.map_cons] at ih ⊢
    by_cases hp : (p.purchase_code_uuid == uuid) = true
    · rw [if_pos hp]
      rw [List.find?_cons_of_pos _ (p := fun x : Purchase => x.purchase_code_uuid == uuid)
            (by simpa using hp),
          List.find?_cons_of_pos _ (p := fun x : Purchase => x.purchase_code_uuid == uuid) hp]
      rfl
    · rw [if_neg hp]
      rw [List.find?_cons_of_neg _ (p := fun x : Purchase => x.purchase_code_uuid == uuid) hp,
          List.find?_cons_of_neg _ (p := fun x : Purchase => x.purchase_code_uuid == uuid) hp]
      exact ih

lemma processDetails_purchases (uuid : String) :
    ∀ (cart : List PurchaseDetails) (sess sess' : Store),
    processDetails uuid cart sess = .ok sess' → sess'.purchases = sess.purchases := by
  intro cart
  induction cart with
  | nil =>
    intro sess sess' h
    simp only [processDetails, Except.ok.injEq] at h
    rw [← h]
  | cons d rest ih =>
    intro sess sess' h
    simp only [processDetails] at h
    cases hf : firstProductByCode sess d.product_code with
    | none => rw [hf] at h; simp at h
    | some product =>
      rw [hf] at h
      dsimp only at h
      by_cases h1 : (!product.product_availability) = true
      · rw [if_pos h1] at h; simp at h
      · rw [if_neg h1] at h
        by_cases h2 : product.product_quantity ≤ 0
        · rw [if_pos h2] at h; simp at h
        · rw [if_neg h2] at h
          by_cases h3 : product.product_quantity < d.purchase_quantity
          · rw [if_pos h3] at h; simp at h
          · rw [if_neg h3] at h
            exact (ih _ _ h).trans rfl

lemma processDetails_error_of_split (uuid : String) (store : Store) :
    ∀ (pre : List PurchaseDetails) (d : PurchaseDetails) (post : List PurchaseDetails)
      (sess : Store) (e : SubmitError),
    (∀ d' ∈ pre ++ d :: post, firstProductByCode sess d'.product_code =
      firstProductByCode store d'.product_code) →
    ((pre ++ d :: post).map (fun x => x.product_code)).Nodup →
    (∀ d' ∈ pre, detailsCheck store d' = none) →
    detailsCheck store d = some e →
    processDetails uuid (pre ++ d :: post) sess = .error e := by
  intro pre
  induction pre with
  | nil =>
    intro d post sess e hagree hnd hpre hd
    simp only [detailsCheck] at hd
    simp only [List.nil_append, processDetails]
    rw [hagree d (by simp)]
    cases hf : firstProductByCode store d.product_code with
    | none =>
      rw [hf] at hd
      dsimp only at hd
      simp only [Option.some.injEq] at hd
      rw [← hd]
    | some product =>
      rw [hf] at hd
      dsimp only at hd ⊢
      by_cases h1 : (!product.product_availability) = true
      · rw [if_pos h1] at hd ⊢
        simp only [Option.some.injEq] at hd
        rw [← hd]
      · rw [if_neg h1] at hd ⊢
        by_cases h2 : product.product_quantity ≤ 0
        · rw [if_pos h2] at hd ⊢
          simp only [Option.some.injEq] at hd
          rw [← hd]
        · rw [if_neg h2] at hd ⊢
          by_cases h3 : product.product_quantity < d.purchase_quantity
          · rw [if_pos h3] at hd ⊢
            simp only [Option.some.injEq] at hd
            rw [← hd]
          · rw [if_neg h3] at hd
            exact absurd hd (by simp)
  | cons p pre' ih =>
    intro d post sess e hagree hnd hpre hd
    have hp : detailsCheck store p = none := hpre p (by simp)
    simp only [detailsCheck] at hp
    cases hf : firstProductByCode store p.product_code with
    | none => rw [hf] at hp; simp at hp
    | some product =>
      rw [hf] at hp
      dsimp only at hp
      by_cases h1 : (!product.product_availability) = true
      · rw [if_pos h1] at hp; simp at hp
      · rw [if_neg h1] at hp
        by_cases h2 : product.product_quantity ≤ 0
        · rw [if_pos h2] at hp; simp at hp
        · rw [if_neg h2] at hp
          by_cases h3 : product.product_quantity < p.purchase_quantity
          · rw [if_pos h3] at hp; simp at hp
          · have hf' : List.find? (fun x : Product => x.product_code_uuid == p.product_code)
                store.products = some product := hf
            have hcode : product.product_code_uuid = p.product_code := by
              simpa using List.find?_some hf'
            simp only [List.cons_append, List.map_cons, List.nodup_cons] at hnd
            simp only [List.cons_append, processDetails]
            rw [hagree p (by simp), hf]
            dsimp only
            rw [if_neg h1, if_neg h2, if_neg h3]
            apply ih d post _ e ?_ hnd.2 (fun d' hd' => hpre d' (List.mem_cons_of_mem _ hd')) hd
            intro d' hd'
            have hne : d'.product_code ≠ product.product_code_uuid := by
              rw [hcode]
              intro heq
              exact hnd.1 (heq ▸ List.mem_map_of_mem (fun x => x.product_code) hd')
            rw [firstProductByCode_session_update _ _ _ _ _ hne]
            exact hagree d' (List.mem_cons_of_mem _ hd')

lemma submit_ok_destruct (store : Store) (mail : String) (now : Nat) (newUuid : String)
    (cart : List PurchaseDetails) (sess : Store) (ruuid : String)
    (h : submit store mail now newUuid cart = .ok (sess, ruuid)) :
    ∃ customer, firstCustomerByMail store mail = some customer ∧ ruuid = newUuid ∧
      sess.purchases = store.purchases ++
        [{ purchase_code_uuid := newUuid, purchase_date := now,
           purchase_customer_mail_address := customer.customer_mail_address,
           purchase_gifted := false }] := by
  unfold submit at h
  cases hc : firstCustomerByMail store mail with
  | none => rw [hc] at h; simp at h
  | some customer =>
    rw [hc] at h
    dsimp only at h
    refine ⟨customer, rfl, ?_⟩
    cases hcol : collectProductList cart [] with
    | error e => rw [hcol] at h; simp at h
    | ok product_list =>
      rw [hcol] at h
      dsimp only at h
      by_cases hlen : product_list.length ≠ cart.length
      · rw [if_pos hlen] at h; simp at h
      · rw [if_neg hlen] at h
        cases hp : processDetails newUuid cart
            { store with purchases := store.purchases ++
                [{ purchase_code_uuid := newUuid, purchase_date := now,
                   purchase_customer_mail_address := customer.customer_mail_address,
                   purchase_gifted := false }] } with
        | error e => rw [hp] at h; simp at h
        | ok sess' =>
          rw [hp] at h
          simp only [Except.ok.injEq, Prod.mk.injEq] at h
          obtain ⟨hsess, hruuid⟩ := h
          refine ⟨hruuid.symm, ?_⟩
          rw [← hsess]
          exact (processDetails_purchases newUuid cart _ _ hp).trans rfl

lemma checkPurchase_store_unchanged (store : Store) (uuid : String) :
    (checkPurchase store uuid).2 = store := by
  unfold checkPurchase
  cases firstPurchaseByUuid store uuid with
  | none => rfl
  | some purchase =>
    dsimp only
    cases firstCustomerByMail store purchase.purchase_customer_mail_address with
    | none => rfl
    | some customer => rfl

/-- C1: for every cart, if `submit` fails with any error — in particular when a
single line fails with product-not-found, unavailable, out-of-stock or
insufficient-stock — the commit on line 119 is never reached, so no Product
quantity is altered and no Purchase or PurchaseItem record exists afterward. -/
theorem submit_failure_full_rollback (store : Store) (mail : String) (now : Nat)
    (newUuid : String) (cart : List PurchaseDetails) (e : SubmitError)
    (h : (submitOutcome store mail now newUuid cart).1 = .error e) :
    (submitOutcome store mail now newUuid cart).2.products = store.products ∧
    (submitOutcome store mail now newUuid cart).2.purchases = store.purchases ∧
    (submitOutcome store mail now newUuid cart).2.purchase_items = store.purchase_items := by
  unfold submitOutcome at h ⊢
  cases hs : submit store mail now newUuid cart with
  | error e' => exact ⟨rfl, rfl, rfl⟩
  | ok pr => rw [hs] at h; simp at h

/-- Witness for C1: a two-line cart whose first line stages a decrement and
whose second line references an unknown product leaves the store unchanged. -/
theorem submit_failure_full_rollback_witness :
    (submitOutcome sampleStore "ada@obar" 7 "P1" [⟨"A", 2⟩, ⟨"C", 1⟩]).2.products =
      sampleStore.products ∧
    (submitOutcome sampleStore "ada@obar" 7 "P1" [⟨"A", 2⟩, ⟨"C", 1⟩]).2.purchases =
      sampleStore.purchases ∧
    (submitOutcome sampleStore "ada@obar" 7 "P1" [⟨"A", 2⟩, ⟨"C", 1⟩]).2.purchase_items =
      sampleStore.purchase_items :=
  submit_failure_full_rollback sampleStore "ada@obar" 7 "P1"
    [⟨"A", 2⟩, ⟨"C", 1⟩] (.productNotFound "C") (by rfl)

/-- C2 (code bug): when the authenticated customer does not exist, line 78
dereferences `customer.customer_mail_address` on `None` before the
`if customer is None` check on line 79, so the request dies with an uncaught
`AttributeError` (HTTP 500) instead of the claimed `CustomerNotFound`;
nothing is persisted either way. -/
theorem missing_customer_crashes_without_notfound :
    submitOutcome sampleStore "ghost@obar" 7 "P1" [⟨"A", 1⟩] =
      (.error .noneCustomerAttributeError, sampleStore) ∧
    SubmitError.noneCustomerAttributeError ≠ SubmitError.customerNotFound :=
  ⟨by rfl, by decide⟩

/-- C3: per cart line the checks run in the source's fixed order (existence,
availability, stock positive, stock sufficient — `detailsCheck`), lines are
processed in cart order, and the first failing check of the first failing
line determines the reported error. -/
theorem submit_first_failing_line_error (store : Store) (mail : String) (now : Nat)
    (newUuid : String) (pre : List PurchaseDetails) (d : PurchaseDetails)
    (post : List PurchaseDetails) (customer : Customer) (e : SubmitError)
    (hcust : firstCustomerByMail store mail = some customer)
    (hq : ∀ d' ∈ pre ++ d :: post, 0 < d'.purchase_quantity)
    (hnd : ((pre ++ d :: post).map (fun x => x.product_code)).Nodup)
    (hpre : ∀ d' ∈ pre, detailsCheck store d' = none)
    (hd : detailsCheck store d = some e) :
    submitOutcome store mail now newUuid (pre ++ d :: post) = (.error e, store) := by
  have hsub : submit store mail now newUuid (pre ++ d :: post) = .error e := by
    unfold submit
    rw [hcust]
    dsimp only
    rw [collectProductList_ok _ [] hq]
    dsimp only
    have hlen := foldl_insert_length_nodup (pre ++ d :: post) [] hnd (by simp)
    simp only [List.length_nil, Nat.zero_add] at hlen
    rw [if_neg (by omega)]
    rw [processDetails_error_of_split newUuid store pre d post
          { store with purchases := store.purchases ++
              [{ purchase_code_uuid := newUuid, purchase_date := now,
                 purchase_customer_mail_address := customer.customer_mail_address,
                 purchase_gifted := false }] }
          e (fun d' _ => rfl) hnd hpre hd]
  unfold submitOutcome
  rw [hsub]

/-- Witness for C3: line 1 passes, line 2 requests 3 of product `B` with
stock 1, so the reported error is `insufficientStock`. -/
theorem submit_first_failing_line_error_witness :
    submitOutcome sampleStore "ada@obar" 7 "P1" ([⟨"A", 2⟩] ++ ⟨"B", 3⟩ :: []) =
      (.error .insufficientStock, sampleStore) :=
  submit_first_failing_line_error sampleStore "ada@obar" 7 "P1" [⟨"A", 2⟩] ⟨"B", 3⟩ []
    ada .insufficientStock (by rfl) (by decide) (by decide) (by decide) (by rfl)

/-- C4: a successful submit of cart `[{A,2},{B,1}]` against stock `A:5, B:1`
yields stock `A:3, B:0`, exactly one Purchase (gifted false, date = the
creation time, customer = the caller), exactly two PurchaseItems, and
returns the new purchase id. -/
theorem submit_sample_cart_success :
    submitOutcome sampleStore "ada@obar" 7 "P1" [⟨"A", 2⟩, ⟨"B", 1⟩] =
      (.ok "P1",
       { products := [{ product_code_uuid := "A", product_quantity := 3,
                        product_availability := true },
                      { product_code_uuid := "B", product_quantity := 0,
                        product_availability := true }],
         purchases := [{ purchase_code_uuid := "P1", purchase_date := 7,
                         purchase_customer_mail_address := "ada@obar",
                         purchase_gifted := false }],
         purchase_items := [{ purchase_item_product_code_uuid := "A",
                              purchase_item_purchase_code_uuid := "P1",
                              purchase_item_quantity := 2 },
                            { purchase_item_product_code_uuid := "B",
                              purchase_item_purchase_code_uuid := "P1",
                              purchase_item_quantity := 1 }],
         customers := [ada] }) := by rfl

/-- C5: a cart with all-positive quantities in which some product code repeats
fails with `duplicateProduct` (detected by comparing the set cardinality with
the cart length on line 94) and leaves the store unchanged. -/
theorem submit_duplicate_product_rejected (store : Store) (mail : String) (now : Nat)
    (newUuid : String) (cart : List PurchaseDetails) (customer : Customer)
    (hcust : firstCustomerByMail store mail = some customer)
    (hq : ∀ d ∈ cart, 0 < d.purchase_quantity)
    (hdup : ¬ (cart.map (fun d => d.product_code)).Nodup) :
    submitOutcome store mail now newUuid cart = (.error .duplicateProduct, store) := by
  have hsub : submit store mail now newUuid cart = .error .duplicateProduct := by
    unfold submit
    rw [hcust]
    dsimp only
    rw [collectProductList_ok cart [] hq]
    dsimp only
    have hlt := foldl_insert_length_dup cart [] (Or.inl hdup)
    simp only [List.length_nil, Nat.zero_add] at hlt
    rw [if_pos (by omega)]
  unfold submitOutcome
  rw [hsub]

/-- Witness for C5: product `A` submitted twice. -/
theorem submit_duplicate_product_rejected_witness :
    submitOutcome sampleStore "ada@obar" 7 "P1" [⟨"A", 1⟩, ⟨"A", 1⟩] =
      (.error .duplicateProduct, sampleStore) :=
  submit_duplicate_product_rejected sampleStore "ada@obar" 7 "P1" [⟨"A", 1⟩, ⟨"A", 1⟩]
    ada (by rfl) (by decide) (by decide)

/-- C6: a cart containing any line with quantity `<= 0` fails with
`invalidQuantity` (raised in the validation loop of lines 84-88, before the
purchase or any inventory change is staged) and persists nothing. -/
theorem submit_invalid_quantity_rejected (store : Store) (mail : String) (now : Nat)
    (newUuid : String) (cart : List PurchaseDetails) (customer : Customer)
    (d : PurchaseDetails)
    (hcust : firstCustomerByMail store mail = some customer)
    (hd : d ∈ cart) (hq : d.purchase_quantity ≤ 0) :
    submitOutcome store mail now newUuid cart = (.error .invalidQuantity, store) := by
  have hsub : submit store mail now newUuid cart = .error .invalidQuantity := by
    unfold submit
    rw [hcust]
    dsimp only
    rw [collectProductList_invalid cart [] d hd hq]
  unfold submitOutcome
  rw [hsub]

/-- Witness for C6: quantity 0 is rejected. -/
theorem submit_invalid_quantity_rejected_witness :
    submitOutcome sampleStore "ada@obar" 7 "P1" [⟨"B", 0⟩] =
      (.error .invalidQuantity, sampleStore) :=
  submit_invalid_quantity_rejected sampleStore "ada@obar" 7 "P1" [⟨"B", 0⟩] ada ⟨"B", 0⟩
    (by rfl) (by decide) (by decide)

/-- C9: submit of an empty cart by an existing customer succeeds, creates
exactly one Purchase (and no PurchaseItem), decrements nothing, and returns
the new purchase id. -/
theorem submit_empty_cart_creates_purchase_only (store : Store) (mail : String) (now : Nat)
    (newUuid : String) (customer : Customer)
    (hcust : firstCustomerByMail store mail = some customer) :
    submitOutcome store mail now newUuid [] =
      (.ok newUuid,
       { store with purchases := store.purchases ++
          [{ purchase_code_uuid := newUuid, purchase_date := now,
             purchase_customer_mail_address := customer.customer_mail_address,
             purchase_gifted := false }] }) := by
  unfold submitOutcome submit
  rw [hcust]
  rfl

/-- Witness for C9: empty cart against the sample store. -/
theorem submit_empty_cart_creates_purchase_only_witness :
    submitOutcome sampleStore "ada@obar" 7 "P9" [] =
      (.ok "P9",
       { sampleStore with purchases := sampleStore.purchases ++
          [{ purchase_code_uuid := "P9", purchase_date := 7,
             purchase_customer_mail_address := "ada@obar",
             purchase_gifted := false }] }) :=
  submit_empty_cart_creates_purchase_only sampleStore "ada@obar" 7 "P9" ada (by rfl)

/-- C10: `OperationCheckPurchase.get` is read-only — whatever it returns, the
store afterwards is the store it was given. -/
theorem checkPurchase_read_only (store : Store) (uuid : String) :
    (checkPurchase store uuid).2 = store :=
  checkPurchase_store_unchanged store uuid

/-- C7: `check(purchase_id)` fails with `purchaseNotFound` (surfaced as 404, a
client error) when no Purchase has that id, fails with `customerInconsistent`
(surfaced as 500, a server-side fault, distinct from the client error class)
when the Purchase exists but its customer cannot be resolved, and otherwise
returns `{gifted, purchase_date, customer_first_name, customer_last_name}`. -/
theorem checkPurchase_result_cases (store : Store) (uuid : String) :
    (firstPurchaseByUuid store uuid = none →
      (checkPurchase store uuid).1 = .error .purchaseNotFound) ∧
    (∀ purchase, firstPurchaseByUuid store uuid = some purchase →
      firstCustomerByMail store purchase.purchase_customer_mail_address = none →
      (checkPurchase store uuid).1 = .error .customerInconsistent) ∧
    (∀ purchase customer, firstPurchaseByUuid store uuid = some purchase →
      firstCustomerByMail store purchase.purchase_customer_mail_address = some customer →
      (checkPurchase store uuid).1 =
        .ok { purchase_gifted := purchase.purchase_gifted,
              purchase_date := purchase.purchase_date,
              customer_first_name := customer.customer_first_name,
              customer_last_name := customer.customer_last_name }) ∧
    checkErrorStatus .purchaseNotFound = 404 ∧
    checkErrorStatus .customerInconsistent = 500 := by
  refine ⟨?_, ?_, ?_, rfl, rfl⟩
  · intro h
    unfold checkPurchase
    rw [h]
  · intro purchase hp hc
    unfold checkPurchase
    rw [hp]
    dsimp only
    rw [hc]
  · intro purchase customer hp hc
    unfold checkPurchase
    rw [hp]
    dsimp only
    rw [hc]

/-- Witness for C7: checking an unknown purchase id fails with 404. -/
theorem checkPurchase_result_cases_witness :
    (checkPurchase giftStore "NOPE").1 = .error .purchaseNotFound :=
  (checkPurchase_result_cases giftStore "NOPE").1 (by rfl)

/-- C8: the gift flag of every Purchase follows the two-state machine
`{NotGifted, Gifted}`: a purchase created by `submit` starts not-gifted;
`gift` by the owner moves NotGifted to Gifted and fails with `alreadyGifted`
when already gifted (so a second consecutive gift always fails); `undo` by
the owner moves Gifted to NotGifted and fails with `notGifted` when not
gifted (so a second consecutive undo always fails); and neither `submit` nor
`checkPurchase` changes the flag of an existing purchase. -/
theorem gift_flag_state_machine (store : Store) (uuid requester : String) :
    (∀ p, firstPurchaseByUuid store uuid = some p →
      p.purchase_customer_mail_address = requester → p.purchase_gifted = false →
      gift_purchase store uuid requester =
        .ok { store with purchases := setGifted store.purchases uuid true } ∧
      giftedFlag { store with purchases := setGifted store.purchases uuid true } uuid =
        some true) ∧
    (∀ p, firstPurchaseByUuid store uuid = some p →
      p.purchase_customer_mail_address = requester → p.purchase_gifted = true →
      gift_purchase store uuid requester = .error .alreadyGifted) ∧
    (∀ p, firstPurchaseByUuid store uuid = some p →
      p.purchase_customer_mail_address = requester → p.purchase_gifted = true →
      undo_purchase store uuid requester =
        .ok { store with purchases := setGifted store.purchases uuid false } ∧
      giftedFlag { store with purchases := setGifted store.purchases uuid false } uuid =
        some false) ∧
    (∀ p, firstPurchaseByUuid store uuid = some p →
      p.purchase_customer_mail_address = requester → p.purchase_gifted = false →
      undo_purchase store uuid requester = .error .notGifted) ∧
    (∀ s', gift_purchase store uuid requester = .ok s' →
      gift_purchase s' uuid requester = .error .alreadyGifted) ∧
    (∀ s', undo_purchase store uuid requester = .ok s' →
      undo_purchase s' uuid requester = .error .notGifted) ∧
    (∀ mail now cart sess ruuid, firstPurchaseByUuid store uuid = none →
      submit store mail now uuid cart = .ok (sess, ruuid) →
      giftedFlag sess uuid = some false) ∧
    (∀ mail now newUuid cart b, giftedFlag store uuid = some b →
      giftedFlag (submitOutcome store mail now newUuid cart).2 uuid = some b) ∧
    (∀ u, (checkPurchase store u).2 = store) := by
  refine ⟨?_, ?_, ?_, ?_, ?_, ?_, ?_, ?_, fun u => checkPurchase_store_unchanged store u⟩
  · intro p hp hown hflag
    constructor
    · unfold gift_purchase
      rw [hp]
      dsimp only
      rw [if_neg (by simp [hown]), if_neg (by simp [hflag])]
    · unfold giftedFlag firstPurchaseByUuid
      dsimp only
      rw [find?_setGifted]
      unfold firstPurchaseByUuid at hp
      rw [hp]
      rfl
  · intro p hp hown hflag
    unfold gift_purchase
    rw [hp]
    dsimp only
    rw [if_neg (by simp [hown]), if_pos hflag]
  · intro p hp hown hflag
    constructor
    · unfold undo_purchase
      rw [hp]
      dsimp only
      rw [if_neg (by simp [hown]), if_neg (by simp [hflag])]
    · unfold giftedFlag firstPurchaseByUuid
      dsimp only
      rw [find?_setGifted]
      unfold firstPurchaseByUuid at hp
      rw [hp]
      rfl
  · intro p hp hown hflag
    unfold undo_purchase
    rw [hp]
    dsimp only
    rw [if_neg (by simp [hown]), if_pos (by simp [hflag])]
  · intro s' hs'
    unfold gift_purchase at hs' ⊢
    cases hf : firstPurchaseByUuid store uuid with
    | none => rw [hf] at hs'; simp at hs'
    | some p =>
      rw [hf] at hs'
      dsimp only at hs'
      by_cases hown : p.purchase_customer_mail_address ≠ requester
      · rw [if_pos hown] at hs'; simp at hs'
      · rw [if_neg hown] at hs'
        by_cases hg : p.purchase_gifted = true
        · rw [if_pos hg] at hs'; simp at hs'
        · rw [if_neg hg] at hs'
          simp only [Except.ok.injEq] at hs'
          rw [← hs']
          have hfind : firstPurchaseByUuid
              { store with purchases := setGifted store.purchases uuid true } uuid =
              some { p with purchase_gifted := true } := by
            unfold firstPurchaseByUuid
            dsimp only
            rw [find?_setGifted]
            unfold firstPurchaseByUuid at hf
            rw [hf]
            rfl
          rw [hfind]
          dsimp only
          rw [if_neg hown, if_pos rfl]
  · intro s' hs'
    unfold undo_purchase at hs' ⊢
    cases hf : firstPurchaseByUuid store uuid with
    | none => rw [hf] at hs'; simp at hs'
    | some p =>
      rw [hf] at hs'
      dsimp only at hs'
      by_cases hown : p.purchase_customer_mail_address ≠ requester
      · rw [if_pos hown] at hs'; simp at hs'
      · rw [if_neg hown] at hs'
        by_cases hg : ¬ p.purchase_gifted = true
        · rw [if_pos hg] at hs'; simp at hs'
        · rw [if_neg hg] at hs'
          simp only [Except.ok.injEq] at hs'
          rw [← hs']
          have hfind : firstPurchaseByUuid
              { store with purchases := setGifted store.purchases uuid false } uuid =
              some { p with purchase_gifted := false } := by
            unfold firstPurchaseByUuid
            dsimp only
            rw [find?_setGifted]
            unfold firstPurchaseByUuid at hf
            rw [hf]
            rfl
          rw [hfind]
          dsimp only
          rw [if_neg hown, if_pos (by simp)]
  · intro mail now cart sess ruuid hnone hsub
    obtain ⟨customer, -, -, hpur⟩ := submit_ok_destruct store mail now uuid cart sess ruuid hsub
    unfold giftedFlag firstPurchaseByUuid
    rw [hpur, List.find?_append]
    unfold firstPurchaseByUuid at hnone
    rw [hnone]
    simp [List.find?_cons]
  · intro mail now newUuid cart b hb
    unfold submitOutcome
    cases hs : submit store mail now newUuid cart with
    | error e => exact hb
    | ok pr =>
      obtain ⟨sess, ruuid⟩ := pr
      dsimp only
      obtain ⟨customer, -, -, hpur⟩ := submit_ok_destruct store mail now newUuid cart sess ruuid hs
      unfold giftedFlag firstPurchaseByUuid at hb ⊢
      rw [hpur, List.find?_append]
      obtain ⟨p, hp, hpb⟩ := Option.map_eq_some'.mp hb
      rw [hp]
      dsimp only [Option.or]
      rw [← hpb]
      rfl

/-- Witness for C8: gifting the sample purchase succeeds and gifting it again
fails with `alreadyGifted`. -/
theorem gift_flag_state_machine_witness :
    gift_purchase giftStore "P1" "ada@obar" =
      .ok { giftStore with purchases := setGifted giftStore.purchases "P1" true } ∧
    gift_purchase { giftStore with purchases := setGifted giftStore.purchases "P1" true }
      "P1" "ada@obar" = .error .alreadyGifted := by
  have h := gift_flag_state_machine giftStore "P1" "ada@obar"
  have h1 := (h.1 ⟨"P1", 0, "ada@obar", false⟩ (by rfl) rfl rfl).1
  exact ⟨h1, h.2.2.2.2.1 _ h1⟩
